import Mathlib

/-!
Verification of the MediaConverter argument-construction logic.

A shallow embedding of `src/converter.py` (class `MediaConverter`), covering:

* the options record `ConvertOptions`;
* the filter builder `_build_filter`;
* the video-argument builder `_build_video_opts` (codec map, GIF palette path,
  quality/bitrate/preset/audio tail);
* the image-argument builder `_build_image_opts` (per-format quality mapping);
* the command construction of `convert` (video/image dispatch, image-to-video
  synthesis, video-to-image extraction) and its post-exit success classification;
* the size-targeted `compress_media` bitrate computation and its abort conditions.

Modelling conventions:

* Python `Optional` fields become `Option`; Python truthiness of option fields
  (`if opts.width:` treats both `None` and `0`/`""`/`[]` as false) is made
  explicit via `intTruthy` / `strTruthy` / `listTruthy` / `pyOrInt` / `pyOrStr`.
* Python f-strings become explicit string concatenation; `str.join` becomes
  `String.intercalate`; `min`/`max` chains are kept in source order.
* Python `//` on integers (floor division) is `Int.fdiv`; Python `int()` applied
  to a non-negative real truncates, modelled by `pyInt` (floor on non-negatives,
  ceiling on negatives).  The arithmetic of `compress_media` is carried out in
  Python over IEEE doubles; it is modelled here over exact rationals.  Every
  concrete instance evaluated below uses inputs on which the double computation
  is exact up to the final truncation and agrees with the rational model.
* Process spawning, the filesystem and `ffprobe` string output are outside the
  embedding: `convert`'s command list is a function of the paths, the two file
  extensions (Python derives them with `Path.suffix.lower()`; the raw extension
  strings are parameters here and are lowered exactly as on lines 242-243), and
  the options; the probe result is a finite `key ↦ parsed numeric value` map.
-/

namespace MediaConverter

/-- Python truthiness of an `Optional[int]` field: `None` and `0` are falsy. -/
def intTruthy : Option Int → Bool
  | none => false
  | some v => v != 0

/-- Python truthiness of an `Optional[str]` field: `None` and `""` are falsy. -/
def strTruthy : Option String → Bool
  | none => false
  | some s => s != ""

/-- Python truthiness of an `Optional[List[str]]` field: `None` and `[]` are falsy. -/
def listTruthy : Option (List String) → Bool
  | none => false
  | some l => l != []

/-- Python `opts.field or d` for an optional-int field (`None` and `0` both fall
through to the default). -/
def pyOrInt (o : Option Int) (d : Int) : Int :=
  match o with
  | none => d
  | some v => if v = 0 then d else v

/-- Python `opts.field or d` for an optional-string field. -/
def pyOrStr (o : Option String) (d : String) : String :=
  match o with
  | none => d
  | some s => if s = "" then d else s

/-- Python `str.lower()` as used on (ASCII) file-name extensions: charwise ASCII
lowering.  (Semantically identical on such strings to `String.toLower`, which maps
`Char.toLower` over the characters, but defined structurally.) -/
def pyLower (s : String) : String :=
  ⟨s.data.map Char.toLower⟩

/-- Python `int()` on an exact rational: truncation toward zero. -/
def pyInt (x : ℚ) : Int :=
  if 0 ≤ x then Rat.floor x else Rat.ceil x

/-- `ConvertOptions` (converter.py lines 12-24). -/
structure ConvertOptions where
  width : Option Int := none
  height : Option Int := none
  fps : Option Int := none
  quality : Option Int := none
  bitrate : Option String := none
  audio_bitrate : Option String := none
  codec : Option String := none
  preset : Option String := none
  extra_args : Option (List String) := none
  output_dir : Option String := none
  deriving Repr, DecidableEq

/-- `MediaConverter.VIDEO_EXTS` (line 29); a Python set, used only for membership. -/
def VIDEO_EXTS : List String :=
  [".mp4", ".avi", ".mkv", ".mov", ".wmv", ".flv", ".webm", ".m4v", ".ts", ".m2ts"]

/-- `MediaConverter.IMAGE_EXTS` (line 30). -/
def IMAGE_EXTS : List String :=
  [".jpg", ".jpeg", ".png", ".bmp", ".gif", ".webp", ".tiff", ".tif", ".ico", ".raw",
   ".cr2", ".nef"]

/-- `MediaConverter.AUDIO_EXTS` (line 31); never consulted by `convert`. -/
def AUDIO_EXTS : List String :=
  [".mp3", ".wav", ".aac", ".flac", ".ogg", ".m4a", ".wma"]

/-- The scale-filter entry of `_build_filter` (lines 123-131): nothing unless width
or height is truthy, otherwise one string with `-1` as the preserve-aspect marker on
an unset (or zero-valued) axis. -/
def scalePart (opts : ConvertOptions) : List String :=
  if intTruthy opts.width || intTruthy opts.height then
    let w := pyOrInt opts.width (-1)
    let h := pyOrInt opts.height (-1)
    if w = -1 then ["scale=-1:" ++ toString h]
    else if h = -1 then ["scale=" ++ toString w ++ ":-1"]
    else ["scale=" ++ toString w ++ ":" ++ toString h]
  else []

/-- The fps-filter entry of `_build_filter` (lines 133-134). -/
def fpsPart (opts : ConvertOptions) : List String :=
  if intTruthy opts.fps then ["fps=" ++ toString (pyOrInt opts.fps 0)] else []

/-- `MediaConverter._build_filter` (lines 119-138): the collected filter entries,
joined with `","` under a single `-vf` flag when nonempty. -/
def build_filter (opts : ConvertOptions) : List String :=
  let filters := scalePart opts ++ fpsPart opts
  if filters.isEmpty then [] else ["-vf", String.intercalate "," filters]

/-- The `codec_map` dict of `_build_video_opts` (lines 146-154). -/
def codec_map : List (String × String) :=
  [(".mp4", "libx264"), (".mov", "libx264"), (".m4v", "libx264"),
   (".avi", "libxvid"), (".mkv", "libx264"), (".webm", "libvpx-vp9"),
   (".wmv", "wmv2"), (".flv", "libx264"), (".gif", "gif")]

/-- Dict lookup in `codec_map`. -/
def codecFor (ext : String) : Option String :=
  (codec_map.find? (fun p => p.fst == ext)).map Prod.snd

/-- The fixed GIF palette filter chain (line 162): fps, lanczos scale, stream split,
palette generation and palette application in one `-vf` value. -/
def gifChain (opts : ConvertOptions) : String :=
  "fps=" ++ toString (pyOrInt opts.fps 30) ++ ",scale=" ++
    toString (pyOrInt opts.width 480) ++
    ":-1:flags=lanczos,split[s0][s1];[s0]palettegen=max_colors=128[p];[s1][p]paletteuse"

/-- Quality/bitrate flags of `_build_video_opts` (lines 169-172): `-crf` whenever
`quality is not None` (so also for quality 0), otherwise `-b:v` for a truthy bitrate. -/
def qualitySeg (opts : ConvertOptions) : List String :=
  match opts.quality with
  | some q => ["-crf", toString q]
  | none => if strTruthy opts.bitrate then ["-b:v", opts.bitrate.getD ""] else []

/-- Preset flag of `_build_video_opts` (lines 174-175). -/
def presetSeg (opts : ConvertOptions) : List String :=
  if strTruthy opts.preset then ["-preset", opts.preset.getD ""] else []

/-- Audio flags of `_build_video_opts` (lines 177-180): AAC always, `192k` default. -/
def audioSeg (opts : ConvertOptions) : List String :=
  if strTruthy opts.audio_bitrate then ["-c:a", "aac", "-b:a", opts.audio_bitrate.getD ""]
  else ["-c:a", "aac", "-b:a", "192k"]

/-- Extra arguments of `_build_video_opts` (lines 182-183). -/
def extraSeg (opts : ConvertOptions) : List String :=
  if listTruthy opts.extra_args then opts.extra_args.getD [] else []

/-- `MediaConverter._build_video_opts` (lines 140-185).  The `.gif` branch (taken when
no codec override is truthy) returns early with the palette chain and `-loop 0`,
skipping the quality/preset/audio/extra tail entirely. -/
def build_video_opts (output_ext : String) (opts : ConvertOptions) : List String :=
  let args := build_filter opts
  if strTruthy opts.codec then
    args ++ ["-c:v", opts.codec.getD ""] ++ qualitySeg opts ++ presetSeg opts ++
      audioSeg opts ++ extraSeg opts
  else
    match codecFor (pyLower output_ext) with
    | some c =>
        if pyLower output_ext = ".gif" then
          args ++ ["-vf", gifChain opts, "-loop", "0"]
        else
          args ++ ["-c:v", c] ++ qualitySeg opts ++ presetSeg opts ++
            audioSeg opts ++ extraSeg opts
    | none =>
        args ++ qualitySeg opts ++ presetSeg opts ++ audioSeg opts ++ extraSeg opts

/-- The scale entry of `_build_image_opts` (lines 191-195): one lanczos scale string
with the `-1` marker on an unset axis, without the per-axis special-casing of
`_build_filter`. -/
def imageScaleVf (opts : ConvertOptions) : List String :=
  if intTruthy opts.width || intTruthy opts.height then
    let w := pyOrInt opts.width (-1)
    let h := pyOrInt opts.height (-1)
    ["scale=" ++ toString w ++ ":" ++ toString h ++ ":flags=lanczos"]
  else []

/-- `MediaConverter._build_image_opts` (lines 187-216): optional lanczos scale filter,
per-format quality mapping with default quality 2, the joined `-vf` value after the
quality flags, and a final `-y`. -/
def build_image_opts (output_ext : String) (opts : ConvertOptions) : List String :=
  let scaleVf : List String := imageScaleVf opts
  let q : Int := opts.quality.getD 2
  let ext := pyLower output_ext
  let vfArgs : List String × List String :=
    if ext = ".jpg" ∨ ext = ".jpeg" then
      (scaleVf ++ ["format=yuvj420p"], ["-q:v", toString (min (max q 2) 31)])
    else if ext = ".png" then
      (scaleVf, ["-compression_level", toString (min (max (Int.fdiv q 3) 0) 9)])
    else if ext = ".webp" then
      (scaleVf, ["-q:v", toString (min (max q 1) 100)])
    else (scaleVf, [])
  vfArgs.snd ++
    (if vfArgs.fst.isEmpty then [] else ["-vf", String.intercalate "," vfArgs.fst]) ++
    ["-y"]

/-- The command list built by `MediaConverter.convert` (lines 233-277), given the
engine path, the input/output paths, the two file-name extensions and the options.
`is_image_output` (line 248) is computed by the source but never used: the dispatch
tests `is_video_output` first, so `.gif` — a member of both `IMAGE_EXTS` and the
video-output class — always takes the video path. -/
def convertCmd (ffmpeg_path input_file output_file inputExt outputExt : String)
    (opts : ConvertOptions) : List String :=
  let input_ext := pyLower inputExt
  let output_ext := pyLower outputExt
  let is_video_input := input_ext ∈ VIDEO_EXTS ∨ input_ext = ".gif"
  let is_image_input := input_ext ∈ IMAGE_EXTS
  let is_video_output := output_ext ∈ VIDEO_EXTS ∨ output_ext = ".gif"
  let base := [ffmpeg_path, "-i", input_file]
  let cmd :=
    if is_video_output then
      if is_image_input then
        -- image→video synthesis (lines 252-267): cmd is rebuilt from scratch;
        -- duration is the local constant 5, and the local `fps` variable of
        -- line 256 is computed but never used in the command; the quality test
        -- on line 266 is a truthiness test, so quality 0 emits no `-crf`.
        [ffmpeg_path, "-loop", "1", "-i", input_file,
         "-c:v", pyOrStr opts.codec "libx264", "-t", "5", "-pix_fmt", "yuv420p"] ++
          build_filter opts ++
          (if intTruthy opts.quality then ["-crf", toString (opts.quality.getD 0)] else [])
      else base ++ build_video_opts output_ext opts
    else
      (if is_video_input then base ++ ["-ss", "00:00:01", "-vframes", "1"] else base) ++
        build_image_opts output_ext opts
  cmd ++ [output_file]

/-- Success classification of `convert` after `process.wait()` (lines 300-312), as a
function of the engine return code and the result of `os.path.getsize(output_file)`:
`none` models the `OSError` a missing file raises (swallowed by the enclosing
`except`, which returns `False`); `some size` an existing file of that size. -/
def convertResult (returncode : Int) (outputSize : Option Nat) : Bool :=
  if returncode = 0 then
    match outputSize with
    | some _ => true
    | none => false
  else false

/-- REFINEMENT COMPARISON ONLY — this definition follows the SPEC's words (§4.2:
"a zero status plus an existing, non-empty output file is the only success
condition"), not the source, and exists to be compared against `convertResult`. -/
def specSuccess (returncode : Int) (outputSize : Option Nat) : Bool :=
  (returncode == 0) && (match outputSize with
    | some n => n != 0
    | none => false)

/-- The duration lookup of `compress_media` (line 362):
`float(info.get('duration', 0) or info.get('format.duration', 0))`, over a probe
result modelled as a finite map from field name to parsed numeric value.  (A present
`duration` wins even when it is `0`, because in Python the raw value is a nonempty
string, which is truthy; `format.duration` is never among the keys `get_info`
produces, so the fallback only ever yields `0`.) -/
def probe_duration (info : List (String × ℚ)) : ℚ :=
  ((info.find? (fun p => p.fst == "duration")).map Prod.snd).getD
    (((info.find? (fun p => p.fst == "format.duration")).map Prod.snd).getD 0)

/-- `MediaConverter.compress_media` (lines 354-382) up to the hand-off to `convert`:
returns the `comp_opts` record passed on, or `none` when the function reports a
failure and returns `False` before the engine is ever invoked (empty probe result,
or zero duration).  `target_bits` is `(target_size_mb * 8 * 1024 * 1024) / duration`
with NO audio reservation subtracted; the 0.9 margin is applied to this full total,
truncated by `int()`, and floor-divided by 1024 for the `k` suffix, while the audio
bitrate is fixed at `128k` independently. -/
def compress_media (info : List (String × ℚ)) (target_size_mb : Int)
    (opts : ConvertOptions) : Option ConvertOptions :=
  if info.isEmpty then none
  else
    let duration := probe_duration info
    if duration = 0 then none
    else
      let target_bits : ℚ := (target_size_mb * 8 * 1024 * 1024 : ℚ) / duration
      let target_bits_safe : Int := pyInt (target_bits * (9 / 10))
      some { bitrate := some (toString (Int.fdiv target_bits_safe 1024) ++ "k"),
             audio_bitrate := some "128k",
             preset := some "slow",
             output_dir := opts.output_dir }

/-- REFINEMENT COMPARISON ONLY — this definition follows the SPEC's words (§4.1
target-size compression: "reserve a fixed 128 kbit/s for audio, and apply a 0.9
safety margin to the remaining video bitrate before formatting as a
kilobit-per-second value"), not the source. -/
def specVideoBitrate (target_size_mb : Int) (duration : ℚ) : String :=
  let total : ℚ := (target_size_mb * 8 * 1024 * 1024 : ℚ) / duration
  let video : ℚ := (total - 128 * 1024) * (9 / 10)
  toString (Int.fdiv (pyInt video) 1024) ++ "k"

end MediaConverter

namespace MediaConverter

/-! ## Supporting facts about decimal numeral strings -/

theorem digitChar_isDigit : ∀ n : Nat, n < 10 → (Nat.digitChar n).isDigit = true := by
  decide

theorem toDigitsCore_digits :
    ∀ (fuel n : Nat) (ds : List Char), (∀ c ∈ ds, c.isDigit = true) →
      ∀ c ∈ Nat.toDigitsCore 10 fuel n ds, c.isDigit = true := by
  intro fuel
  induction fuel with
  | zero =>
      intro n ds hds c hc
      exact hds c (by simpa [Nat.toDigitsCore] using hc)
  | succ fuel ih =>
      intro n ds hds c hc
      simp only [Nat.toDigitsCore] at hc
      by_cases h : n / 10 = 0
      · rw [if_pos h] at hc
        rcases List.mem_cons.mp hc with rfl | hmem
        · exact digitChar_isDigit _ (Nat.mod_lt n (by norm_num))
        · exact hds c hmem
      · rw [if_neg h] at hc
        refine ih (n / 10) (Nat.digitChar (n % 10) :: ds) ?_ c hc
        intro c' hc'
        rcases List.mem_cons.mp hc' with rfl | hmem
        · exact digitChar_isDigit _ (Nat.mod_lt n (by norm_num))
        · exact hds c' hmem

theorem toDigitsCore_ne_nil :
    ∀ (fuel n : Nat) (ds : List Char), fuel ≠ 0 ∨ ds ≠ [] →
      Nat.toDigitsCore 10 fuel n ds ≠ [] := by
  intro fuel
  induction fuel with
  | zero =>
      intro n ds hds
      simp only [Nat.toDigitsCore]
      tauto
  | succ fuel ih =>
      intro n ds _
      simp only [Nat.toDigitsCore]
      by_cases h : n / 10 = 0
      · rw [if_pos h]; exact List.cons_ne_nil _ _
      · rw [if_neg h]
        exact ih (n / 10) (Nat.digitChar (n % 10) :: ds) (Or.inr (List.cons_ne_nil _ _))

theorem natRepr_digits (n : Nat) : ∀ c ∈ (Nat.repr n).data, c.isDigit = true := by
  intro c hc
  refine toDigitsCore_digits (n + 1) n [] (by simp) c ?_
  simpa [Nat.repr, Nat.toDigits] using hc

theorem natRepr_ne_nil (n : Nat) : (Nat.repr n).data ≠ [] := by
  have := toDigitsCore_ne_nil (n + 1) n [] (Or.inl (Nat.succ_ne_zero n))
  simpa [Nat.repr, Nat.toDigits] using this

theorem natRepr_head_digit (n : Nat) :
    ∃ c cs, (Nat.repr n).data = c :: cs ∧ c.isDigit = true := by
  obtain ⟨c, cs, h⟩ := List.exists_cons_of_ne_nil (natRepr_ne_nil n)
  exact ⟨c, cs, h, natRepr_digits n c (h ▸ List.mem_cons_self c cs)⟩

/-- Decimal rendering of an integer: a digit-headed string for non-negative values,
a `'-'` followed by a digit for negative ones. -/
theorem int_toString_shape (x : Int) :
    (∃ c cs, (toString x).data = c :: cs ∧ c.isDigit = true) ∨
    (∃ c cs, (toString x).data = '-' :: c :: cs ∧ c.isDigit = true) := by
  cases x with
  | ofNat n =>
      left
      obtain ⟨c, cs, h, hd⟩ := natRepr_head_digit n
      exact ⟨c, cs, h, hd⟩
  | negSucc n =>
      right
      obtain ⟨c, cs, h, hd⟩ := natRepr_head_digit (n + 1)
      refine ⟨c, cs, ?_, hd⟩
      show (Int.repr (Int.negSucc n)).data = _
      rw [Int.repr, String.data_append, h]
      rfl

/-- An integer never renders as a string whose first character is `'-'` and whose
second character is not a digit (e.g. a flag such as `"-crf"`). -/
theorem int_toString_ne_dash_flag (x : Int) (s : String) (c0 : Char) (rest : List Char)
    (hs : s.data = '-' :: c0 :: rest) (hc0 : c0.isDigit = false) : toString x ≠ s := by
  intro he
  rcases int_toString_shape x with ⟨c, cs, hd, hdig⟩ | ⟨c, cs, hd, hdig⟩
  · rw [he, hs] at hd
    cases hd
    simp at hdig
  · rw [he, hs] at hd
    rw [List.cons.injEq, List.cons.injEq] at hd
    rw [hd.2.1] at hc0
    rw [hc0] at hdig
    exact Bool.false_ne_true hdig

/-- Non-negative integers render with a digit first character. -/
theorem int_toString_nonneg_head (x : Int) (hx : 0 ≤ x) :
    ∃ c cs, (toString x).data = c :: cs ∧ c.isDigit = true := by
  obtain ⟨n, rfl⟩ := Int.eq_ofNat_of_zero_le hx
  exact natRepr_head_digit n

/-- Two strings with distinct first characters differ. -/
theorem ne_of_head {a b : String} {c1 c2 : Char} (ha : a.data.head? = some c1)
    (hb : b.data.head? = some c2) (hne : c1 ≠ c2) : a ≠ b := by
  intro h
  rw [h, hb] at ha
  exact hne (Option.some.inj ha).symm

end MediaConverter

namespace MediaConverter

/-! ## Structure of the generated argument lists -/

/-- Appending keeps the first character of a nonempty string. -/
theorem head_append {s : String} (t : String) {c : Char}
    (h : s.data.head? = some c) : (s ++ t).data.head? = some c := by
  rw [String.data_append]
  cases hs : s.data with
  | nil => rw [hs] at h; cases h
  | cons a l =>
      rw [hs] at h
      simp only [List.head?] at h
      rw [← h]
      rfl

theorem scalePart_shape (opts : ConvertOptions) :
    scalePart opts = [] ∨
    ∃ s, scalePart opts = [s] ∧ s.data.head? = some 's' := by
  unfold scalePart
  cases hwh : (intTruthy opts.width || intTruthy opts.height) with
  | false => left; simp
  | true =>
      right
      by_cases h1 : pyOrInt opts.width (-1) = -1
      · exact ⟨"scale=-1:" ++ toString (pyOrInt opts.height (-1)), by simp [h1],
          head_append _ rfl⟩
      · by_cases h2 : pyOrInt opts.height (-1) = -1
        · exact ⟨"scale=" ++ toString (pyOrInt opts.width (-1)) ++ ":-1",
            by simp [h1, h2], head_append _ (head_append _ rfl)⟩
        · exact ⟨"scale=" ++ toString (pyOrInt opts.width (-1)) ++ ":" ++
            toString (pyOrInt opts.height (-1)),
            by simp [h1, h2], head_append _ (head_append _ (head_append _ rfl))⟩

theorem fpsPart_shape (opts : ConvertOptions) :
    fpsPart opts = [] ∨
    ∃ s, fpsPart opts = [s] ∧ s.data.head? = some 'f' := by
  unfold fpsPart
  cases hf : intTruthy opts.fps with
  | false => left; simp
  | true =>
      right
      exact ⟨"fps=" ++ toString (pyOrInt opts.fps 0), by simp, head_append _ rfl⟩

/-- `_build_filter` returns either nothing or a single `-vf` flag whose value starts
with `'s'` (a scale filter) or `'f'` (an fps filter). -/
theorem build_filter_shape (opts : ConvertOptions) :
    build_filter opts = [] ∨
    ∃ str, build_filter opts = ["-vf", str] ∧
      (str.data.head? = some 's' ∨ str.data.head? = some 'f') := by
  unfold build_filter
  rcases scalePart_shape opts with hs | ⟨s, hs, hsh⟩ <;>
    rcases fpsPart_shape opts with hf | ⟨f, hf, hfh⟩
  · left; rw [hs, hf]; rfl
  · right
    refine ⟨String.intercalate "," [f], by rw [hs, hf]; rfl, Or.inr ?_⟩
    exact hfh
  · right
    refine ⟨String.intercalate "," [s], by rw [hs, hf]; simp, Or.inl ?_⟩
    exact hsh
  · right
    refine ⟨String.intercalate "," [s, f], by rw [hs, hf]; rfl, Or.inl ?_⟩
    show (s ++ "," ++ f).data.head? = some 's'
    exact head_append f (head_append "," hsh)

/-- Any string starting with `'-'`, other than `"-vf"` itself, is absent from the
filter-builder output. -/
theorem not_mem_build_filter (opts : ConvertOptions) (s : String)
    (h1 : s ≠ "-vf") (h2 : s.data.head? = some '-') : s ∉ build_filter opts := by
  rcases build_filter_shape opts with h | ⟨str, heq, hh⟩
  · rw [h]; exact List.not_mem_nil s
  · rw [heq]
    intro hm
    rcases List.mem_cons.mp hm with rfl | hm2
    · exact h1 rfl
    · rcases List.mem_cons.mp hm2 with rfl | hm3
      · rcases hh with hh | hh <;> rw [hh] at h2 <;> cases h2
      · cases hm3

/-- The GIF palette chain starts with `'f'`. -/
theorem gifChain_head (opts : ConvertOptions) :
    (gifChain opts).data.head? = some 'f' := by
  unfold gifChain
  exact head_append _ (head_append _ rfl)

end MediaConverter

namespace MediaConverter

/-! ## Membership facts for the video-option segments -/

theorem extraSeg_of_none {opts : ConvertOptions} (h : opts.extra_args = none) :
    extraSeg opts = [] := by
  unfold extraSeg listTruthy
  rw [h]
  simp

theorem codecFor_mem_vals {ext c : String} (h : codecFor ext = some c) :
    c ∈ codec_map.map Prod.snd := by
  unfold codecFor at h
  cases hf : codec_map.find? (fun p => p.fst == ext) with
  | none => rw [hf] at h; cases h
  | some p =>
      rw [hf] at h
      cases h
      exact List.mem_map_of_mem Prod.snd (List.mem_of_find?_eq_some hf)

theorem codecFor_ne_flags {ext c : String} (h : codecFor ext = some c) :
    c ≠ "-crf" ∧ c ≠ "-b:v" := by
  have hm := codecFor_mem_vals h
  simp only [codec_map, List.map, List.mem_cons, List.not_mem_nil, or_false] at hm
  rcases hm with rfl | rfl | rfl | rfl | rfl | rfl | rfl | rfl | rfl <;>
    exact ⟨by decide, by decide⟩

theorem crf_mem_qualitySeg {opts : ConvertOptions}
    (hb : opts.bitrate ≠ some "-crf") :
    "-crf" ∈ qualitySeg opts ↔ opts.quality.isSome := by
  unfold qualitySeg
  cases hq : opts.quality with
  | some q => simp
  | none =>
      cases hbv : opts.bitrate with
      | none => simp [strTruthy]
      | some b =>
          have hbne : b ≠ "-crf" := fun hh => hb (by rw [hbv, hh])
          cases hsb : strTruthy (some b) with
          | false => simp
          | true => simp [Ne.symm hbne]

theorem bv_mem_qualitySeg {opts : ConvertOptions} :
    "-b:v" ∈ qualitySeg opts ↔ (opts.quality = none ∧ strTruthy opts.bitrate = true) := by
  unfold qualitySeg
  cases hq : opts.quality with
  | some q =>
      have hne : toString q ≠ "-b:v" :=
        int_toString_ne_dash_flag q "-b:v" 'b' [':', 'v'] rfl (by decide)
      simp [Ne.symm hne]
  | none =>
      cases hsb : strTruthy opts.bitrate with
      | false => simp
      | true => simp

theorem crf_not_mem_presetSeg {opts : ConvertOptions}
    (hp : opts.preset ≠ some "-crf") : "-crf" ∉ presetSeg opts := by
  unfold presetSeg
  cases hpv : opts.preset with
  | none => simp [strTruthy]
  | some p =>
      have hpne : p ≠ "-crf" := fun hh => hp (by rw [hpv, hh])
      cases hsb : strTruthy (some p) with
      | false => simp
      | true => simp [Ne.symm hpne]

theorem bv_not_mem_presetSeg {opts : ConvertOptions}
    (hp : opts.preset ≠ some "-b:v") : "-b:v" ∉ presetSeg opts := by
  unfold presetSeg
  cases hpv : opts.preset with
  | none => simp [strTruthy]
  | some p =>
      have hpne : p ≠ "-b:v" := fun hh => hp (by rw [hpv, hh])
      cases hsb : strTruthy (some p) with
      | false => simp
      | true => simp [Ne.symm hpne]

theorem crf_not_mem_audioSeg {opts : ConvertOptions}
    (ha : opts.audio_bitrate ≠ some "-crf") : "-crf" ∉ audioSeg opts := by
  unfold audioSeg
  cases hav : opts.audio_bitrate with
  | none => simp [strTruthy]
  | some a =>
      have hane : a ≠ "-crf" := fun hh => ha (by rw [hav, hh])
      cases hsb : strTruthy (some a) with
      | false => simp
      | true => simp [Ne.symm hane]

theorem bv_not_mem_audioSeg {opts : ConvertOptions}
    (ha : opts.audio_bitrate ≠ some "-b:v") : "-b:v" ∉ audioSeg opts := by
  unfold audioSeg
  cases hav : opts.audio_bitrate with
  | none => simp [strTruthy]
  | some a =>
      have hane : a ≠ "-b:v" := fun hh => ha (by rw [hav, hh])
      cases hsb : strTruthy (some a) with
      | false => simp
      | true => simp [Ne.symm hane]

end MediaConverter

namespace MediaConverter

/-- The early-return GIF path of `_build_video_opts`: no truthy codec override and a
`.gif` output extension. -/
def gifPathB (output_ext : String) (opts : ConvertOptions) : Bool :=
  !strTruthy opts.codec && (pyLower output_ext == ".gif")

theorem codecFor_none_ne_gif {ext : String} (h : codecFor ext = none) :
    ext ≠ ".gif" := by
  intro hg
  rw [hg] at h
  exact absurd h (by decide)

theorem crf_ne_gifChain (opts : ConvertOptions) : "-crf" ≠ gifChain opts :=
  ne_of_head rfl (gifChain_head opts) (by decide)

theorem bv_ne_gifChain (opts : ConvertOptions) : "-b:v" ≠ gifChain opts :=
  ne_of_head rfl (gifChain_head opts) (by decide)

/-- `-crf` appears in the video options exactly when the GIF early return is not taken
and quality is present (option values themselves not being the literal flag). -/
theorem crf_mem_build_video_opts (ext : String) (opts : ConvertOptions)
    (hb : opts.bitrate ≠ some "-crf") (hp : opts.preset ≠ some "-crf")
    (ha : opts.audio_bitrate ≠ some "-crf") (hc : opts.codec ≠ some "-crf")
    (hx : opts.extra_args = none) :
    ("-crf" ∈ build_video_opts ext opts) ↔
      (gifPathB ext opts = false ∧ opts.quality.isSome = true) := by
  unfold build_video_opts gifPathB
  have hfil : "-crf" ∉ build_filter opts := not_mem_build_filter opts _ (by decide) rfl
  rw [extraSeg_of_none hx]
  cases hct : strTruthy opts.codec with
  | true =>
      cases hcv : opts.codec with
      | none => rw [hcv] at hct; exact absurd hct (by decide)
      | some cv =>
          have hcne : cv ≠ "-crf" := fun hh => hc (by rw [hcv, hh])
          simp [hfil, crf_mem_qualitySeg hb, crf_not_mem_presetSeg hp,
            crf_not_mem_audioSeg ha, Ne.symm hcne]
  | false =>
      cases hcf : codecFor (pyLower ext) with
      | none =>
          have hng : pyLower ext ≠ ".gif" := codecFor_none_ne_gif hcf
          simp [hfil, crf_mem_qualitySeg hb, crf_not_mem_presetSeg hp,
            crf_not_mem_audioSeg ha, hng]
      | some c =>
          by_cases hg : pyLower ext = ".gif"
          · simp [hfil, hg, crf_ne_gifChain opts]
          · have hcne := (codecFor_ne_flags hcf).1
            simp [hfil, crf_mem_qualitySeg hb, crf_not_mem_presetSeg hp,
              crf_not_mem_audioSeg ha, Ne.symm hcne, hg]

/-- `-b:v` appears in the video options exactly when the GIF early return is not
taken, quality is absent and the bitrate is truthy. -/
theorem bv_mem_build_video_opts (ext : String) (opts : ConvertOptions)
    (hp : opts.preset ≠ some "-b:v") (ha : opts.audio_bitrate ≠ some "-b:v")
    (hc : opts.codec ≠ some "-b:v") (hx : opts.extra_args = none) :
    ("-b:v" ∈ build_video_opts ext opts) ↔
      (gifPathB ext opts = false ∧ opts.quality = none ∧ strTruthy opts.bitrate = true) := by
  unfold build_video_opts gifPathB
  have hfil : "-b:v" ∉ build_filter opts := not_mem_build_filter opts _ (by decide) rfl
  rw [extraSeg_of_none hx]
  cases hct : strTruthy opts.codec with
  | true =>
      cases hcv : opts.codec with
      | none => rw [hcv] at hct; exact absurd hct (by decide)
      | some cv =>
          have hcne : cv ≠ "-b:v" := fun hh => hc (by rw [hcv, hh])
          simp [hfil, bv_mem_qualitySeg, bv_not_mem_presetSeg hp,
            bv_not_mem_audioSeg ha, Ne.symm hcne]
  | false =>
      cases hcf : codecFor (pyLower ext) with
      | none =>
          have hng : pyLower ext ≠ ".gif" := codecFor_none_ne_gif hcf
          simp [hfil, bv_mem_qualitySeg, bv_not_mem_presetSeg hp,
            bv_not_mem_audioSeg ha, hng]
      | some c =>
          by_cases hg : pyLower ext = ".gif"
          · simp [hfil, hg, bv_ne_gifChain opts]
          · have hcne := (codecFor_ne_flags hcf).2
            simp [hfil, bv_mem_qualitySeg, bv_not_mem_presetSeg hp,
              bv_not_mem_audioSeg ha, Ne.symm hcne, hg]

end MediaConverter

namespace MediaConverter

/-! ## Claim C1 -/

/-- C1 counterexample: with a zero exit status and an EXISTING but EMPTY output file,
`convert` returns `True` (it merely prints the 0.00 MB size), while the claim's
success condition (zero status AND existing AND non-empty output) classifies this
as failure.  The non-emptiness requirement is not checked by the code. -/
theorem c1_counterexample :
    convertResult 0 (some 0) = true ∧ specSuccess 0 (some 0) = false := by
  constructor <;> rfl

/-- C1 (amended): the result of a conversion run by `convert` is success (`True`)
iff the engine process exits with status zero AND the output file exists (whatever
its size, so a zero-exit empty output file is still classified as success); a
missing output file despite a zero exit status is failure. -/
theorem c1_amended (returncode : Int) (outputSize : Option Nat) :
    convertResult returncode outputSize = true ↔
      (returncode = 0 ∧ outputSize.isSome = true) := by
  unfold convertResult
  by_cases h : returncode = 0
  · cases outputSize <;> simp [h]
  · simp [h]

/-! ## Claim C8 -/

/-- C8: size-targeted compression hands options to the engine-invoking `convert`
call iff the probe produced information and a nonzero duration; an empty probe
result or a zero/missing duration makes `compress_media` report and return `False`
with the engine never invoked, hence no (partial) output written. -/
theorem c8_compress_aborts (info : List (String × ℚ)) (mb : Int)
    (opts : ConvertOptions) :
    compress_media info mb opts = none ↔ (info = [] ∨ probe_duration info = 0) := by
  unfold compress_media
  cases info with
  | nil => simp
  | cons a l =>
      by_cases hd : probe_duration (a :: l) = 0
      · simp [hd]
      · simp [hd]

/-! ## Claim C2 -/

/-- Batteries' computable `Rat.floor` agrees with the mathematical floor. -/
theorem rat_floor_eq (q : ℚ) : Rat.floor q = ⌊q⌋ := by
  have h1 : Rat.floor q ≤ ⌊q⌋ := Int.le_floor.mpr (Rat.le_floor.mp le_rfl)
  have h2 : ⌊q⌋ ≤ Rat.floor q := Rat.le_floor.mpr (Int.floor_le q)
  omega

/-- Evaluation rule for `pyInt` on non-negative rationals. -/
theorem pyInt_eval {x : ℚ} {z : Int} (h0 : 0 ≤ x) (h1 : (z : ℚ) ≤ x)
    (h2 : x < z + 1) : pyInt x = z := by
  unfold pyInt
  rw [if_pos h0, rat_floor_eq]
  exact Int.floor_eq_iff.mpr ⟨h1, by exact_mod_cast h2⟩

/-- On a usable probe result, `compress_media` reaches `convert` with exactly these
options: the margined bitrate, the fixed 128k audio bitrate and the slow preset. -/
theorem compress_media_some (info : List (String × ℚ)) (mb : Int)
    (opts : ConvertOptions) (hne : info ≠ []) (hd : probe_duration info ≠ 0) :
    compress_media info mb opts =
      some { bitrate := some (toString (Int.fdiv
              (pyInt ((mb * 8 * 1024 * 1024 : ℚ) / probe_duration info * (9 / 10)))
              1024) ++ "k"),
             audio_bitrate := some "128k",
             preset := some "slow",
             output_dir := opts.output_dir } := by
  unfold compress_media
  cases info with
  | nil => exact absurd rfl hne
  | cons a l => simp [hd]

/-- C2 counterexample: at target size 50 MB and duration 100 s the code computes
`int((50*8*1024*1024/100) * 0.9) // 1024 = 3686` kbit/s — the 0.9 margin applied to
the FULL total, with no 128 kbit/s audio reservation subtracted first — whereas the
claim's reserve-then-margin formula yields `3571k`. -/
theorem c2_counterexample :
    (compress_media [("duration", (100 : ℚ))] 50 {}).map ConvertOptions.bitrate =
      some (some "3686k") ∧
    specVideoBitrate 50 100 = "3571k" ∧ ("3686k" : String) ≠ "3571k" := by
  have hpd : probe_duration [("duration", (100 : ℚ))] = 100 := rfl
  refine ⟨?_, ?_, by decide⟩
  · rw [compress_media_some _ _ _ (by simp) (by rw [hpd]; norm_num)]
    rw [hpd]
    have e1 : pyInt (((50 : Int) * 8 * 1024 * 1024 : ℚ) / 100 * (9 / 10)) = 3774873 :=
      pyInt_eval (by norm_num) (by norm_num) (by norm_num)
    rw [e1]
    rfl
  · have e2 : pyInt ((((50 : Int) * 8 * 1024 * 1024 : ℚ) / 100 - 128 * 1024) * (9 / 10)) =
        3656908 := pyInt_eval (by norm_num) (by norm_num) (by norm_num)
    show toString ((pyInt ((((50 : Int) * 8 * 1024 * 1024 : ℚ) / 100 - 128 * 1024) *
      (9 / 10))).fdiv 1024) ++ "k" = "3571k"
    rw [e2]
    rfl

/-- C2 (amended): `compress_media` computes the total bitrate
`(targetMB * 8 * 1024 * 1024) / duration`, applies the 0.9 safety margin to that
FULL total — the fixed `128k` audio bitrate is set separately and NOT subtracted
from the total first — truncates with `int()`, floor-divides by 1024 and formats
with suffix `k`; the truncated margined value is strictly below the pre-margin
total, per the spec's monotonicity requirement. -/
theorem c2_amended (mb : Int) (d : ℚ) (info : List (String × ℚ))
    (opts : ConvertOptions) (hmb : 0 < mb) (hd : 0 < d) (hinfo : info ≠ [])
    (hdur : probe_duration info = d) :
    ∃ copts, compress_media info mb opts = some copts ∧
      copts.audio_bitrate = some "128k" ∧
      copts.bitrate =
        some (toString
          (Int.fdiv (pyInt ((mb * 8 * 1024 * 1024 : ℚ) / d * (9 / 10))) 1024) ++ "k") ∧
      ((pyInt ((mb * 8 * 1024 * 1024 : ℚ) / d * (9 / 10)) : ℚ) <
        (mb * 8 * 1024 * 1024 : ℚ) / d) := by
  have hmbq : (0 : ℚ) < (mb : ℚ) := by exact_mod_cast hmb
  have htot : (0 : ℚ) < (mb * 8 * 1024 * 1024 : ℚ) / d := by
    apply div_pos _ hd
    nlinarith
  have hx0 : (0 : ℚ) ≤ (mb * 8 * 1024 * 1024 : ℚ) / d * (9 / 10) := by nlinarith
  have hfl : ((pyInt ((mb * 8 * 1024 * 1024 : ℚ) / d * (9 / 10))) : ℚ) ≤
      (mb * 8 * 1024 * 1024 : ℚ) / d * (9 / 10) := by
    unfold pyInt
    rw [if_pos hx0, rat_floor_eq]
    exact Int.floor_le _
  refine ⟨_, compress_media_some info mb opts hinfo (by rw [hdur]; exact hd.ne'), rfl,
    by rw [hdur], ?_⟩
  nlinarith

end MediaConverter

namespace MediaConverter

/-! ## Claim C3 -/

theorem fpsPart_of_truthy {opts : ConvertOptions} (hf : intTruthy opts.fps = true) :
    fpsPart opts = ["fps=" ++ toString (pyOrInt opts.fps 0)] := by
  unfold fpsPart
  rw [hf]
  simp

/-- With a truthy frame rate the filter builder emits its single `-vf` exactly once. -/
theorem count_vf_build_filter (opts : ConvertOptions) (hf : intTruthy opts.fps = true) :
    (build_filter opts).count "-vf" = 1 := by
  rcases build_filter_shape opts with h | ⟨str, heq, hh⟩
  · exfalso
    unfold build_filter at h
    cases he : (scalePart opts ++ fpsPart opts).isEmpty with
    | false => simp [he] at h
    | true =>
        have := List.isEmpty_iff.mp he
        have h2 := List.append_eq_nil.mp this
        rw [fpsPart_of_truthy hf] at h2
        cases h2.2
  · have hne : str ≠ "-vf" := by
      rcases hh with hh | hh <;> exact ne_of_head hh rfl (by decide)
    rw [heq]
    simp [List.count_cons, hne]

/-- C3 counterexample: for GIF output with no codec override, width 480 and fps 15
set (the tool's own video→GIF menu options), the generated arguments contain TWO
`-vf` flags — the generic filter builder's, then the palette chain — not exactly
one. -/
theorem c3_counterexample :
    (build_video_opts ".gif"
        { width := some 480, fps := some 15, quality := some 10 }).count "-vf" = 2 ∧
    ¬((build_video_opts ".gif"
        { width := some 480, fps := some 15, quality := some 10 }).count "-vf" = 1) := by
  constructor <;> decide

/-- C3 (amended): for GIF output with no truthy codec override and both a scaling
dimension and a frame rate set, the generated arguments contain exactly TWO `-vf`
flags: the generic filter builder's (counted once), followed by a final `-vf` whose
value is a single filter chain combining fps, scale and the two-pass palette
sequence (`palettegen` then `paletteuse`); the engine honours the last flag. -/
theorem c3_amended (ext : String) (opts : ConvertOptions)
    (hcodec : strTruthy opts.codec = false) (hext : pyLower ext = ".gif")
    (hw : intTruthy opts.width = true) (hf : intTruthy opts.fps = true) :
    build_video_opts ext opts =
      build_filter opts ++
        ["-vf",
         "fps=" ++ toString (pyOrInt opts.fps 30) ++ ",scale=" ++
           toString (pyOrInt opts.width 480) ++
           ":-1:flags=lanczos,split[s0][s1];[s0]palettegen=max_colors=128[p];[s1][p]paletteuse",
         "-loop", "0"] ∧
    (build_video_opts ext opts).count "-vf" = 2 ∧
    (build_filter opts).count "-vf" = 1 := by
  have hgif : codecFor ".gif" = some "gif" := rfl
  have heq : build_video_opts ext opts =
      build_filter opts ++ ["-vf", gifChain opts, "-loop", "0"] := by
    unfold build_video_opts
    rw [hcodec, hext, hgif]
    simp
  refine ⟨by rw [heq]; rfl, ?_, count_vf_build_filter opts hf⟩
  rw [heq, List.count_append, count_vf_build_filter opts hf]
  have hchain : gifChain opts ≠ "-vf" := ne_of_head (gifChain_head opts) rfl (by decide)
  simp [List.count_cons, hchain]

/-- C3 witness: the amended claim at the tool's video→GIF menu options. -/
theorem c3_witness :
    build_video_opts ".gif" { width := some 480, fps := some 15, quality := some 10 } =
      build_filter { width := some 480, fps := some 15, quality := some 10 } ++
        ["-vf",
         "fps=" ++ toString (pyOrInt (some 15) 30) ++ ",scale=" ++
           toString (pyOrInt (some 480) 480) ++
           ":-1:flags=lanczos,split[s0][s1];[s0]palettegen=max_colors=128[p];[s1][p]paletteuse",
         "-loop", "0"] ∧
    (build_video_opts ".gif"
      { width := some 480, fps := some 15, quality := some 10 }).count "-vf" = 2 ∧
    (build_filter { width := some 480, fps := some 15, quality := some 10 }).count "-vf" = 1 :=
  c3_amended ".gif" { width := some 480, fps := some 15, quality := some 10 }
    rfl (by decide) (by decide) (by decide)

/-! ## Claim C4 -/

/-- C4 counterexample: on the GIF early-return path (output `.gif`, no codec
override) a set quality (here 23, without `extra_args`) does NOT cause `-crf` to be
emitted, contradicting the claim's "when quality is set, `-crf` is emitted". -/
theorem c4_counterexample :
    ({ quality := some 23 } : ConvertOptions).quality = some 23 ∧
    ({ quality := some 23 } : ConvertOptions).extra_args = none ∧
    "-crf" ∉ build_video_opts ".gif" { quality := some 23 } := by
  refine ⟨rfl, rfl, by decide⟩

/-- C4 (amended): for options without `extra_args` (and whose string-valued fields
are not themselves the literal flag tokens), `-crf` and `-b:v` are never both
present; on the GIF early-return path NEITHER is emitted (this is where the original
claim fails); on every other path a set quality (including quality 0) takes
precedence — `-crf` is emitted and `-b:v` is not — and `-b:v` is emitted exactly
when quality is absent and the bitrate is truthy. -/
theorem c4_amended (output_ext : String) (opts : ConvertOptions)
    (hx : opts.extra_args = none)
    (hb1 : opts.bitrate ≠ some "-crf") (hp1 : opts.preset ≠ some "-crf")
    (ha1 : opts.audio_bitrate ≠ some "-crf") (hc1 : opts.codec ≠ some "-crf")
    (hp2 : opts.preset ≠ some "-b:v") (ha2 : opts.audio_bitrate ≠ some "-b:v")
    (hc2 : opts.codec ≠ some "-b:v") :
    ¬("-crf" ∈ build_video_opts output_ext opts ∧
        "-b:v" ∈ build_video_opts output_ext opts) ∧
    (gifPathB output_ext opts = true →
      "-crf" ∉ build_video_opts output_ext opts ∧
      "-b:v" ∉ build_video_opts output_ext opts) ∧
    (gifPathB output_ext opts = false →
      (opts.quality.isSome = true →
        "-crf" ∈ build_video_opts output_ext opts ∧
        "-b:v" ∉ build_video_opts output_ext opts) ∧
      ("-b:v" ∈ build_video_opts output_ext opts ↔
        opts.quality = none ∧ strTruthy opts.bitrate = true)) := by
  have hcrf := crf_mem_build_video_opts output_ext opts hb1 hp1 ha1 hc1 hx
  have hbv := bv_mem_build_video_opts output_ext opts hp2 ha2 hc2 hx
  refine ⟨?_, ?_, ?_⟩
  · rintro ⟨h1, h2⟩
    rw [hcrf] at h1
    rw [hbv] at h2
    rw [h2.2.1] at h1
    exact absurd h1.2 (by decide)
  · intro hg
    constructor
    · rw [hcrf]
      rintro ⟨h, -⟩
      rw [hg] at h
      cases h
    · rw [hbv]
      rintro ⟨h, -⟩
      rw [hg] at h
      cases h
  · intro hg
    constructor
    · intro hq
      refine ⟨hcrf.mpr ⟨hg, hq⟩, ?_⟩
      rw [hbv]
      rintro ⟨-, hqn, -⟩
      rw [hqn] at hq
      exact absurd hq (by decide)
    · rw [hbv]
      simp [hg]

/-- C4 witness: the amended claim at `.mp4` output with quality 23 and a (shadowed)
bitrate of `2M`. -/
theorem c4_witness :
    (¬("-crf" ∈ build_video_opts ".mp4"
          { quality := some 23, bitrate := some "2M" } ∧
        "-b:v" ∈ build_video_opts ".mp4"
          { quality := some 23, bitrate := some "2M" }) ∧
      (gifPathB ".mp4" { quality := some 23, bitrate := some "2M" } = true →
        "-crf" ∉ build_video_opts ".mp4" { quality := some 23, bitrate := some "2M" } ∧
        "-b:v" ∉ build_video_opts ".mp4" { quality := some 23, bitrate := some "2M" }) ∧
      (gifPathB ".mp4" { quality := some 23, bitrate := some "2M" } = false →
        (({ quality := some 23, bitrate := some "2M" } :
            ConvertOptions).quality.isSome = true →
          "-crf" ∈ build_video_opts ".mp4" { quality := some 23, bitrate := some "2M" } ∧
          "-b:v" ∉ build_video_opts ".mp4" { quality := some 23, bitrate := some "2M" }) ∧
        ("-b:v" ∈ build_video_opts ".mp4" { quality := some 23, bitrate := some "2M" } ↔
          ({ quality := some 23, bitrate := some "2M" } : ConvertOptions).quality = none ∧
          strTruthy ({ quality := some 23, bitrate := some "2M" } :
            ConvertOptions).bitrate = true))) :=
  c4_amended ".mp4" { quality := some 23, bitrate := some "2M" }
    rfl (by decide) (by decide) (by decide) (by decide) (by decide) (by decide) (by decide)

end MediaConverter

namespace MediaConverter

/-! ## Claim C5 -/

/-- C5: the image argument builder maps an integer quality `q` (defaulting to 2 when
absent) per target format: `.jpg`/`.jpeg` emit `-q:v` with `q` clamped into
`[2,31]`; `.png` emits `-compression_level` with `q` floor-divided by 3 and clamped
into `[0,9]`; `.webp` emits `-q:v` with `q` clamped into `[1,100]` — these flags
leading the argument list (so quality 0 gives 2 for jpeg, and quality 200 gives 31,
9 and 100 respectively). -/
theorem c5_image_quality_map (opts : ConvertOptions) :
    (["-q:v", toString (min (max (opts.quality.getD 2) 2) 31)] <+:
        build_image_opts ".jpg" opts) ∧
    (["-q:v", toString (min (max (opts.quality.getD 2) 2) 31)] <+:
        build_image_opts ".jpeg" opts) ∧
    (["-compression_level",
        toString (min (max (Int.fdiv (opts.quality.getD 2) 3) 0) 9)] <+:
        build_image_opts ".png" opts) ∧
    (["-q:v", toString (min (max (opts.quality.getD 2) 1) 100)] <+:
        build_image_opts ".webp" opts) ∧
    min (max (0 : Int) 2) 31 = 2 ∧ min (max (200 : Int) 2) 31 = 31 ∧
    min (max (Int.fdiv 200 3) 0) 9 = 9 ∧ min (max (200 : Int) 1) 100 = 100 := by
  have hjpg : pyLower ".jpg" = ".jpg" := by decide
  have hjpeg : pyLower ".jpeg" = ".jpeg" := by decide
  have hpng : pyLower ".png" = ".png" := by decide
  have hwebp : pyLower ".webp" = ".webp" := by decide
  refine ⟨?_, ?_, ?_, ?_, by decide, by decide, by decide, by decide⟩
  · unfold build_image_opts
    simp only [hjpg]
    simp +decide [List.append_assoc, List.prefix_append]
  · unfold build_image_opts
    simp only [hjpeg]
    simp +decide [List.append_assoc, List.prefix_append]
  · unfold build_image_opts
    simp only [hpng]
    simp +decide [List.append_assoc, List.prefix_append]
  · unfold build_image_opts
    simp only [hwebp]
    simp +decide [List.append_assoc, List.prefix_append]

end MediaConverter

namespace MediaConverter

/-! ## Claim C6 -/

/-- C6: with exactly one of width/height set (to a positive value), the generated
scale filter — in the generic filter builder `_build_filter` and in the image-path
builder `_build_image_opts` alike — encodes the engine's preserve-aspect marker `-1`
on the unset axis, and in both builders the width-only and the height-only filter
strings differ from the both-set string. -/
theorem c6_scale_marker (w h : Int) (hw : 0 < w) (hh : 0 < h) :
    build_filter { width := some w } = ["-vf", "scale=" ++ toString w ++ ":-1"] ∧
    build_filter { height := some h } = ["-vf", "scale=-1:" ++ toString h] ∧
    build_filter { width := some w, height := some h } =
      ["-vf", "scale=" ++ toString w ++ ":" ++ toString h] ∧
    "scale=" ++ toString w ++ ":-1" ≠ "scale=" ++ toString w ++ ":" ++ toString h ∧
    "scale=-1:" ++ toString h ≠ "scale=" ++ toString w ++ ":" ++ toString h ∧
    imageScaleVf { width := some w } = ["scale=" ++ toString w ++ ":-1:flags=lanczos"] ∧
    imageScaleVf { height := some h } = ["scale=-1:" ++ toString h ++ ":flags=lanczos"] ∧
    imageScaleVf { width := some w, height := some h } =
      ["scale=" ++ toString w ++ ":" ++ toString h ++ ":flags=lanczos"] ∧
    "scale=" ++ toString w ++ ":-1:flags=lanczos" ≠
      "scale=" ++ toString w ++ ":" ++ toString h ++ ":flags=lanczos" ∧
    "scale=-1:" ++ toString h ++ ":flags=lanczos" ≠
      "scale=" ++ toString w ++ ":" ++ toString h ++ ":flags=lanczos" := by
  have hw0 : w ≠ 0 := by omega
  have hh0 : h ≠ 0 := by omega
  have hwm : ¬(w = -1) := by omega
  have hhm : ¬(h = -1) := by omega
  obtain ⟨cw, csw, hwd, hwdig⟩ := int_toString_nonneg_head w hw.le
  obtain ⟨ch, csh, hhd, hhdig⟩ := int_toString_nonneg_head h hh.le
  refine ⟨?_, ?_, ?_, ?_, ?_, ?_, ?_, ?_, ?_, ?_⟩
  · unfold build_filter scalePart fpsPart
    simp [intTruthy, pyOrInt, hw0, hwm]
    rfl
  · unfold build_filter scalePart fpsPart
    simp [intTruthy, pyOrInt, hh0]
    rfl
  · unfold build_filter scalePart fpsPart
    simp [intTruthy, pyOrInt, hw0, hh0, hwm, hhm]
    rfl
  · intro he
    have hd := congrArg String.data he
    simp only [String.data_append, List.append_assoc] at hd
    have hd2 := List.append_cancel_left hd
    have hd3 := List.append_cancel_left hd2
    rw [hhd] at hd3
    simp only [List.cons_append, List.nil_append, List.cons.injEq] at hd3
    rw [← hd3.2.1] at hhdig
    exact absurd hhdig (by decide)
  · intro he
    have hd := congrArg String.data he
    simp only [String.data_append, List.append_assoc] at hd
    rw [hwd] at hd
    simp only [List.cons_append, List.nil_append, List.cons.injEq] at hd
    rw [← hd.2.2.2.2.2.2.1] at hwdig
    exact absurd hwdig (by decide)
  · unfold imageScaleVf
    simp only [intTruthy, pyOrInt]
    rw [if_pos (by simp [hw0])]
    rw [show ((if w = 0 then (-1 : Int) else w)) = w from by simp [hw0]]
    rw [show toString (-1 : Int) = "-1" from rfl]
    apply congrArg (fun s => [s])
    apply String.ext
    simp [String.data_append, List.append_assoc]
  · unfold imageScaleVf
    simp only [intTruthy, pyOrInt]
    rw [if_pos (by simp [hh0])]
    rw [show ((if h = 0 then (-1 : Int) else h)) = h from by simp [hh0]]
    rw [show toString (-1 : Int) = "-1" from rfl]
    apply congrArg (fun s => [s])
    apply String.ext
    simp [String.data_append, List.append_assoc]
  · unfold imageScaleVf
    simp only [intTruthy, pyOrInt]
    rw [if_pos (by simp [hw0])]
    rw [show ((if w = 0 then (-1 : Int) else w)) = w from by simp [hw0]]
    rw [show ((if h = 0 then (-1 : Int) else h)) = h from by simp [hh0]]
  · intro he
    have hd := congrArg String.data he
    simp only [String.data_append, List.append_assoc] at hd
    have hd2 := List.append_cancel_left hd
    have hd3 := List.append_cancel_left hd2
    rw [hhd] at hd3
    simp only [List.cons_append, List.nil_append, List.cons.injEq] at hd3
    rw [← hd3.2.1] at hhdig
    exact absurd hhdig (by decide)
  · intro he
    have hd := congrArg String.data he
    simp only [String.data_append, List.append_assoc] at hd
    rw [hwd] at hd
    simp only [List.cons_append, List.nil_append, List.cons.injEq] at hd
    rw [← hd.2.2.2.2.2.2.1] at hwdig
    exact absurd hwdig (by decide)

/-- C6 witness: the scale-marker property at width 640 and height 360, in both the
generic filter builder and the image-path builder. -/
theorem c6_witness :
    build_filter { width := some 640 } = ["-vf", "scale=" ++ toString (640 : Int) ++ ":-1"] ∧
    build_filter { height := some 360 } = ["-vf", "scale=-1:" ++ toString (360 : Int)] ∧
    build_filter { width := some 640, height := some 360 } =
      ["-vf", "scale=" ++ toString (640 : Int) ++ ":" ++ toString (360 : Int)] ∧
    "scale=" ++ toString (640 : Int) ++ ":-1" ≠
      "scale=" ++ toString (640 : Int) ++ ":" ++ toString (360 : Int) ∧
    "scale=-1:" ++ toString (360 : Int) ≠
      "scale=" ++ toString (640 : Int) ++ ":" ++ toString (360 : Int) ∧
    imageScaleVf { width := some 640 } =
      ["scale=" ++ toString (640 : Int) ++ ":-1:flags=lanczos"] ∧
    imageScaleVf { height := some 360 } =
      ["scale=-1:" ++ toString (360 : Int) ++ ":flags=lanczos"] ∧
    imageScaleVf { width := some 640, height := some 360 } =
      ["scale=" ++ toString (640 : Int) ++ ":" ++ toString (360 : Int) ++
        ":flags=lanczos"] ∧
    "scale=" ++ toString (640 : Int) ++ ":-1:flags=lanczos" ≠
      "scale=" ++ toString (640 : Int) ++ ":" ++ toString (360 : Int) ++
        ":flags=lanczos" ∧
    "scale=-1:" ++ toString (360 : Int) ++ ":flags=lanczos" ≠
      "scale=" ++ toString (640 : Int) ++ ":" ++ toString (360 : Int) ++
        ":flags=lanczos" :=
  c6_scale_marker 640 360 (by decide) (by decide)

end MediaConverter

namespace MediaConverter

/-! ## Structure of the image-option list -/

theorem imageScaleVf_shape (opts : ConvertOptions) :
    imageScaleVf opts = [] ∨
    ∃ s, imageScaleVf opts = [s] ∧ s.data.head? = some 's' := by
  unfold imageScaleVf
  cases hwh : (intTruthy opts.width || intTruthy opts.height) with
  | false => left; simp
  | true =>
      right
      exact ⟨"scale=" ++ toString (pyOrInt opts.width (-1)) ++ ":" ++
        toString (pyOrInt opts.height (-1)) ++ ":flags=lanczos", by simp,
        head_append _ rfl⟩

theorem intercalate_singleton (s : String) : String.intercalate "," [s] = s := rfl

theorem intercalate_pair (s t : String) :
    String.intercalate "," [s, t] = s ++ "," ++ t := rfl

/-- The image options always end with the unconditional overwrite flag `-y`. -/
theorem y_mem_build_image_opts (output_ext : String) (opts : ConvertOptions) :
    "-y" ∈ build_image_opts output_ext opts := by
  unfold build_image_opts
  simp

/-- The image options never contain a `-vframes` token. -/
theorem vframes_not_mem_build_image_opts (output_ext : String) (opts : ConvertOptions) :
    "-vframes" ∉ build_image_opts output_ext opts := by
  have hts : ∀ x : Int, "-vframes" ≠ toString x := fun x h =>
    int_toString_ne_dash_flag x "-vframes" 'v' ['f', 'r', 'a', 'm', 'e', 's'] rfl
      (by decide) h.symm
  unfold build_image_opts
  rcases imageScaleVf_shape opts with hsc | ⟨s, hsc, hsh⟩
  · rw [hsc]
    by_cases h1 : pyLower output_ext = ".jpg" ∨ pyLower output_ext = ".jpeg" <;>
      by_cases h2 : pyLower output_ext = ".png" <;>
      by_cases h3 : pyLower output_ext = ".webp" <;>
      simp [h1, h2, h3, hts, intercalate_singleton, intercalate_pair]
  · rw [hsc]
    have hnes : "-vframes" ≠ s := ne_of_head rfl hsh (by decide)
    have hnes2 : "-vframes" ≠ s ++ "," ++ "format=yuvj420p" :=
      ne_of_head rfl (head_append _ (head_append _ hsh)) (by decide)
    by_cases h1 : pyLower output_ext = ".jpg" ∨ pyLower output_ext = ".jpeg" <;>
      by_cases h2 : pyLower output_ext = ".png" <;>
      by_cases h3 : pyLower output_ext = ".webp" <;>
      simp [h1, h2, h3, hts, intercalate_singleton, intercalate_pair, hnes, hnes2]

end MediaConverter

namespace MediaConverter

/-! ## Claim C7 -/

/-- C7 counterexample: `.gif` is classified as an image extension
(`is_image_output` is true for `.mp4` → `.gif`), yet the built command contains no
`-ss`/`-vframes` at all: the dispatch tests the video-output classification first,
and `.gif` is also classified as video output, so the GIF path is taken. -/
theorem c7_counterexample :
    (pyLower ".gif" ∈ IMAGE_EXTS) ∧ (pyLower ".mp4" ∈ VIDEO_EXTS) ∧
    "-ss" ∉ convertCmd "ffmpeg" "a.mp4" "b.gif" ".mp4" ".gif" {} ∧
    "-vframes" ∉ convertCmd "ffmpeg" "a.mp4" "b.gif" ".mp4" ".gif" {} := by
  refine ⟨by decide, by decide, by decide, by decide⟩

/-- C7 (amended): when the input extension is classified as video and the output
extension is classified as image AND NOT as video (i.e. any image extension except
`.gif`, which takes the video path), the command seeks to the fixed 1-second
timestamp (`-ss 00:00:01`), contains exactly one `-vframes 1` frame-count limit,
and then the image-quality arguments for the output format. -/
theorem c7_amended (ff inf outf inputExt outputExt : String) (opts : ConvertOptions)
    (hin : pyLower inputExt ∈ VIDEO_EXTS ∨ pyLower inputExt = ".gif")
    (hout : pyLower outputExt ∈ IMAGE_EXTS)
    (hnv : ¬(pyLower outputExt ∈ VIDEO_EXTS ∨ pyLower outputExt = ".gif"))
    (hff : ff ≠ "-vframes") (hinf : inf ≠ "-vframes") (houtf : outf ≠ "-vframes") :
    convertCmd ff inf outf inputExt outputExt opts =
      [ff, "-i", inf, "-ss", "00:00:01", "-vframes", "1"] ++
        build_image_opts (pyLower outputExt) opts ++ [outf] ∧
    (convertCmd ff inf outf inputExt outputExt opts).count "-vframes" = 1 := by
  have heq : convertCmd ff inf outf inputExt outputExt opts =
      [ff, "-i", inf, "-ss", "00:00:01", "-vframes", "1"] ++
        build_image_opts (pyLower outputExt) opts ++ [outf] := by
    unfold convertCmd
    dsimp only
    rw [if_neg hnv, if_pos hin]
    simp [List.append_assoc]
  refine ⟨heq, ?_⟩
  rw [heq, List.count_append, List.count_append]
  have h1 : List.count "-vframes" [ff, "-i", inf, "-ss", "00:00:01", "-vframes", "1"] = 1 := by
    simp [List.count_cons, hff, hinf]
  have h2 : List.count "-vframes" (build_image_opts (pyLower outputExt) opts) = 0 :=
    List.count_eq_zero.mpr (vframes_not_mem_build_image_opts _ _)
  have h3 : List.count "-vframes" [outf] = 0 :=
    List.count_eq_zero.mpr (by simp [Ne.symm houtf])
  omega

/-- C7 witness: `.mp4` input, `.jpg` output. -/
theorem c7_witness :
    convertCmd "ffmpeg" "a.mp4" "b.jpg" ".mp4" ".jpg" {} =
      ["ffmpeg", "-i", "a.mp4", "-ss", "00:00:01", "-vframes", "1"] ++
        build_image_opts (pyLower ".jpg") {} ++ ["b.jpg"] ∧
    (convertCmd "ffmpeg" "a.mp4" "b.jpg" ".mp4" ".jpg" {}).count "-vframes" = 1 :=
  c7_amended "ffmpeg" "a.mp4" "b.jpg" ".mp4" ".jpg" {} (by decide) (by decide)
    (by decide) (by decide) (by decide) (by decide)

end MediaConverter

namespace MediaConverter

/-! ## Claim C9 -/

/-- C9: an output extension classified neither as video nor as image (e.g. `.mp3`
and every other audio extension) is routed through the image-options builder; with
a video input the command still carries the 1-second seek `-ss 00:00:01`, the
single-frame limit `-vframes 1`, and the unconditional overwrite flag `-y`
contributed by the image-options builder. -/
theorem c9_audio_output_routing (ff inf outf inputExt outputExt : String)
    (opts : ConvertOptions)
    (hin : pyLower inputExt ∈ VIDEO_EXTS ∨ pyLower inputExt = ".gif")
    (hnv : ¬(pyLower outputExt ∈ VIDEO_EXTS ∨ pyLower outputExt = ".gif"))
    (hni : pyLower outputExt ∉ IMAGE_EXTS) :
    convertCmd ff inf outf inputExt outputExt opts =
      [ff, "-i", inf, "-ss", "00:00:01", "-vframes", "1"] ++
        build_image_opts (pyLower outputExt) opts ++ [outf] ∧
    (["-ss", "00:00:01"] <:+: convertCmd ff inf outf inputExt outputExt opts) ∧
    (["-vframes", "1"] <:+: convertCmd ff inf outf inputExt outputExt opts) ∧
    "-y" ∈ convertCmd ff inf outf inputExt outputExt opts := by
  have heq : convertCmd ff inf outf inputExt outputExt opts =
      [ff, "-i", inf, "-ss", "00:00:01", "-vframes", "1"] ++
        build_image_opts (pyLower outputExt) opts ++ [outf] := by
    unfold convertCmd
    dsimp only
    rw [if_neg hnv, if_pos hin]
    simp [List.append_assoc]
  refine ⟨heq, ?_, ?_, ?_⟩
  · rw [heq]
    exact ⟨[ff, "-i", inf],
      ["-vframes", "1"] ++ build_image_opts (pyLower outputExt) opts ++ [outf],
      by simp⟩
  · rw [heq]
    exact ⟨[ff, "-i", inf, "-ss", "00:00:01"],
      build_image_opts (pyLower outputExt) opts ++ [outf], by simp⟩
  · rw [heq]
    have := y_mem_build_image_opts (pyLower outputExt) opts
    simp [List.mem_append, this]

/-- C9 witness: `.mp4` input, `.mp3` (audio) output. -/
theorem c9_witness :
    convertCmd "ffmpeg" "a.mp4" "b.mp3" ".mp4" ".mp3" {} =
      ["ffmpeg", "-i", "a.mp4", "-ss", "00:00:01", "-vframes", "1"] ++
        build_image_opts (pyLower ".mp3") {} ++ ["b.mp3"] ∧
    (["-ss", "00:00:01"] <:+: convertCmd "ffmpeg" "a.mp4" "b.mp3" ".mp4" ".mp3" {}) ∧
    (["-vframes", "1"] <:+: convertCmd "ffmpeg" "a.mp4" "b.mp3" ".mp4" ".mp3" {}) ∧
    "-y" ∈ convertCmd "ffmpeg" "a.mp4" "b.mp3" ".mp4" ".mp3" {} :=
  c9_audio_output_routing "ffmpeg" "a.mp4" "b.mp3" ".mp4" ".mp3" {}
    (by decide) (by decide) (by decide)

end MediaConverter

namespace MediaConverter

/-! ## Claim C10 -/

/-- In every non-GIF-path branch, the video builder puts `-crf 0` for quality 0. -/
theorem crf0_infix_build_video_opts (ext : String) (opts : ConvertOptions)
    (hq0 : opts.quality = some 0) (hng : pyLower ext ≠ ".gif") :
    ["-crf", "0"] <:+: build_video_opts ext opts := by
  have hqs : qualitySeg opts = ["-crf", "0"] := by
    unfold qualitySeg
    rw [hq0]
    rfl
  unfold build_video_opts
  cases hct : strTruthy opts.codec with
  | true =>
      rw [if_pos rfl, hqs]
      exact ⟨build_filter opts ++ ["-c:v", opts.codec.getD ""],
        presetSeg opts ++ audioSeg opts ++ extraSeg opts, by simp⟩
  | false =>
      rw [if_neg (by simp)]
      cases hcf : codecFor (pyLower ext) with
      | some c =>
          dsimp only
          rw [if_neg hng, hqs]
          exact ⟨build_filter opts ++ ["-c:v", c],
            presetSeg opts ++ audioSeg opts ++ extraSeg opts, by simp⟩
      | none =>
          dsimp only
          rw [hqs]
          exact ⟨build_filter opts,
            presetSeg opts ++ audioSeg opts ++ extraSeg opts, by simp⟩

/-- C10: in the image-to-video synthesis path, quality 0 is treated as absent (the
truthiness test drops the `-crf` flag entirely), while the video-to-video builder
emits `-crf 0` for the same options on any non-GIF-path extension; and the synthesis
path always loops the image (`-loop 1`), fixes the duration at 5 seconds (`-t 5`)
and normalizes the pixel format (`-pix_fmt yuv420p`), whatever the options. -/
theorem c10_synthesis_quality0 (ff inf outf inputExt outputExt ext2 : String)
    (opts : ConvertOptions)
    (himg : pyLower inputExt ∈ IMAGE_EXTS)
    (hvid : pyLower outputExt ∈ VIDEO_EXTS ∨ pyLower outputExt = ".gif")
    (hq0 : opts.quality = some 0)
    (hcodec : opts.codec ≠ some "-crf")
    (hff : ff ≠ "-crf") (hinf : inf ≠ "-crf") (houtf : outf ≠ "-crf")
    (hext2 : pyLower ext2 ≠ ".gif") :
    "-crf" ∉ convertCmd ff inf outf inputExt outputExt opts ∧
    (∀ opts2 : ConvertOptions,
      (["-loop", "1"] <:+: convertCmd ff inf outf inputExt outputExt opts2) ∧
      (["-t", "5"] <:+: convertCmd ff inf outf inputExt outputExt opts2) ∧
      (["-pix_fmt", "yuv420p"] <:+: convertCmd ff inf outf inputExt outputExt opts2)) ∧
    ["-crf", "0"] <:+: build_video_opts ext2 opts := by
  have hsyn : ∀ o : ConvertOptions, convertCmd ff inf outf inputExt outputExt o =
      [ff, "-loop", "1", "-i", inf, "-c:v", pyOrStr o.codec "libx264", "-t", "5",
        "-pix_fmt", "yuv420p"] ++ build_filter o ++
        (if intTruthy o.quality then ["-crf", toString (o.quality.getD 0)] else []) ++
        [outf] := by
    intro o
    unfold convertCmd
    dsimp only
    rw [if_pos hvid, if_pos himg]
  refine ⟨?_, ?_, crf0_infix_build_video_opts ext2 opts hq0 hext2⟩
  · rw [hsyn opts, hq0]
    have hq : intTruthy (some (0 : Int)) = false := rfl
    rw [hq]
    have hpys : pyOrStr opts.codec "libx264" ≠ "-crf" := by
      unfold pyOrStr
      cases hcv : opts.codec with
      | none => decide
      | some cv =>
          by_cases hce : cv = ""
          · simp [hce]
          · have : cv ≠ "-crf" := fun hh => hcodec (by rw [hcv, hh])
            simp [hce, this]
    have hfil : "-crf" ∉ build_filter opts := not_mem_build_filter opts _ (by decide) rfl
    simp [List.mem_append, hff, hinf, houtf, Ne.symm hpys, hfil,
      Ne.symm hff, Ne.symm hinf, Ne.symm houtf]
  · intro opts2
    rw [hsyn opts2]
    refine ⟨⟨[ff],
      ["-i", inf, "-c:v", pyOrStr opts2.codec "libx264", "-t", "5", "-pix_fmt",
        "yuv420p"] ++ build_filter opts2 ++
        (if intTruthy opts2.quality then ["-crf", toString (opts2.quality.getD 0)]
          else []) ++ [outf], by simp⟩,
      ⟨[ff, "-loop", "1", "-i", inf, "-c:v", pyOrStr opts2.codec "libx264"],
        ["-pix_fmt", "yuv420p"] ++ build_filter opts2 ++
        (if intTruthy opts2.quality then ["-crf", toString (opts2.quality.getD 0)]
          else []) ++ [outf], by simp⟩,
      ⟨[ff, "-loop", "1", "-i", inf, "-c:v", pyOrStr opts2.codec "libx264", "-t", "5"],
        build_filter opts2 ++
        (if intTruthy opts2.quality then ["-crf", toString (opts2.quality.getD 0)]
          else []) ++ [outf], by simp⟩⟩

/-- C10 witness: `.png` input, `.mp4` output, quality 0, compared against the `.mp4`
video builder. -/
theorem c10_witness :
    "-crf" ∉ convertCmd "ffmpeg" "a.png" "b.mp4" ".png" ".mp4" { quality := some 0 } ∧
    (∀ opts2 : ConvertOptions,
      (["-loop", "1"] <:+: convertCmd "ffmpeg" "a.png" "b.mp4" ".png" ".mp4" opts2) ∧
      (["-t", "5"] <:+: convertCmd "ffmpeg" "a.png" "b.mp4" ".png" ".mp4" opts2) ∧
      (["-pix_fmt", "yuv420p"] <:+:
        convertCmd "ffmpeg" "a.png" "b.mp4" ".png" ".mp4" opts2)) ∧
    ["-crf", "0"] <:+: build_video_opts ".mp4" { quality := some 0 } :=
  c10_synthesis_quality0 "ffmpeg" "a.png" "b.mp4" ".png" ".mp4" ".mp4"
    { quality := some 0 } (by decide) (by decide) rfl (by decide) (by decide)
    (by decide) (by decide) (by decide)

end MediaConverter

namespace MediaConverter

/-- C2 witness: the amended compression formula at target 50 MB, duration 100 s. -/
theorem c2_witness :
    ∃ copts, compress_media [("duration", (100 : ℚ))] 50 {} = some copts ∧
      copts.audio_bitrate = some "128k" ∧
      copts.bitrate =
        some (toString
          (Int.fdiv (pyInt (((50 : Int) * 8 * 1024 * 1024 : ℚ) / 100 * (9 / 10)))
            1024) ++ "k") ∧
      ((pyInt (((50 : Int) * 8 * 1024 * 1024 : ℚ) / 100 * (9 / 10)) : ℚ) <
        ((50 : Int) * 8 * 1024 * 1024 : ℚ) / 100) :=
  c2_amended 50 100 [("duration", (100 : ℚ))] {} (by decide) (by decide)
    (by decide) rfl

end MediaConverter
